import Mathlib

/-!
# Webhook dispatch of build configurations

A shallow embedding of `pkg/build/apiserver/registry/buildconfig/webhook.go`:
`WebHookHandler.ProcessWebHook` and `WebHookHandler.ServeHTTP`.

The handler talks to collaborators that live outside the file (the build
configuration client, the plugins, `webhook.CheckSecret`, the instantiator, the
encoder).  Their answers are fields of the handler, and every call the handler
makes is appended, in program order, to a trace of events, next to the writes
to the response.  Error values built with the `errors` and `fmt` libraries are
kept as the constructor call that built them.
-/

namespace buildconfig

/-! ## Values -/

/-- The result of `fmt.Sprintf(format, args...)`, kept as the call: the format
string and the arguments in order. -/
structure Formatted where
  format : String
  args : List String
deriving DecidableEq, Repr

/-- Go: `fmt.Sprintf`. -/
def Sprintf (format : String) (args : List String) : Formatted :=
  ⟨format, args⟩

/-- Go: `schema.GroupResource`. -/
structure GroupResource where
  Group : String
  Resource : String
deriving DecidableEq, Repr

/-- Go: `schema.GroupVersion`. -/
structure GroupVersion where
  Group : String
  Version : String
deriving DecidableEq, Repr

/-- Go: `build.Resource(resource)`, the resource qualified with the build API group. -/
def build.Resource (resource : String) : GroupResource :=
  ⟨"build.openshift.io", resource⟩

/-- Go values of type `error` that are not nil (nil is `none` of `Option GoError`).

* `ErrSecretMismatch`, `ErrHookNotEnabled`, `MethodNotSupported` are the three
  sentinel variables of package `webhook`; the `switch err` of `ProcessWebHook`
  compares against them by identity;
* `plain text` is any other error that is not a `*errors.StatusError`;
* `Errorf format arg` is `fmt.Errorf(format, arg)`;
* `status reason message` is a `*errors.StatusError` built by other means than
  the constructors below;
* the `New...` constructors are the calls of package `errors` (apimachinery)
  of the same name, all of which return a `*errors.StatusError`. -/
inductive GoError where
  | ErrSecretMismatch
  | ErrHookNotEnabled
  | MethodNotSupported
  | plain (text : String)
  | Errorf (format : String) (arg : GoError)
  | status (reason : String) (message : String)
  | NewBadRequest (reason : Formatted)
  | NewNotFound (qualifiedResource : GroupResource) (name : String)
  | NewUnauthorized (reason : Formatted)
  | NewMethodNotSupported (qualifiedResource : GroupResource) (action : String)
  | NewInternalError (err : GoError)
deriving DecidableEq, Repr

/-- Go: the type assertion `_, ok := err.(*errors.StatusError)`. -/
def GoError.isStatusError : GoError → Bool
  | .status _ _ => true
  | .NewBadRequest _ => true
  | .NewNotFound _ _ => true
  | .NewUnauthorized _ => true
  | .NewMethodNotSupported _ _ => true
  | .NewInternalError _ => true
  | _ => false

/-- Go: `corev1.EnvVar`. -/
structure EnvVar where
  Name : String
  Value : String
deriving DecidableEq, Repr

/-- Go: `buildv1.SourceRevision` (the commit it points to). -/
structure SourceRevision where
  Commit : String
  Message : String
deriving DecidableEq, Repr

/-- Go: `buildv1.DockerStrategyOptions`. -/
structure DockerStrategyOptions where
  BuildArgs : List EnvVar
  NoCache : Option Bool
deriving DecidableEq, Repr

/-- Go: `buildv1.WebHookTrigger`. -/
structure WebHookTrigger where
  Secret : String
  AllowEnv : Bool
  SecretReference : Option String
deriving DecidableEq, Repr

/-- Go: `buildv1.BuildConfig`: its namespace, its name and its webhook
triggers, each under its hook type. -/
structure BuildConfig where
  Namespace : String
  Name : String
  Triggers : List (String × WebHookTrigger)
deriving DecidableEq, Repr

/-- Go: `buildv1.BuildTriggerCause`. -/
structure BuildTriggerCause where
  Message : String
  HookType : String
  Revision : Option SourceRevision
deriving DecidableEq, Repr

/-- Go: `buildv1.BuildRequest`; `Name` is `ObjectMeta.Name`. -/
structure BuildRequest where
  TriggeredBy : List BuildTriggerCause
  Name : String
  Revision : Option SourceRevision
  Env : List EnvVar
  DockerStrategyOptions : Option DockerStrategyOptions
deriving DecidableEq, Repr

/-- Go: `buildv1.Build`, the build the instantiator returns. -/
structure Build where
  Namespace : String
  Name : String
deriving DecidableEq, Repr

/-- Go: `*http.Request`, as far as a plugin and the handler read it. -/
structure Request where
  Method : String
  Header : List (String × String)
  Body : String
deriving DecidableEq, Repr

/-- Go: `context.Context`; `apirequest.NamespaceValue` reads the namespace
stored in it. -/
structure Context where
  Namespace : String
deriving DecidableEq, Repr

/-- Go: `apirequest.NamespaceValue(ctx)`. -/
def NamespaceValue (ctx : Context) : String :=
  ctx.Namespace

/-- The five values `plugin.Extract` returns:
`(revision, envvars, dockerStrategyOptions, proceed, err)`. -/
structure Extracted where
  revision : Option SourceRevision
  envvars : List EnvVar
  dockerStrategyOptions : Option DockerStrategyOptions
  proceed : Bool
  err : Option GoError
deriving DecidableEq, Repr

/-- Go: `webhook.Plugin`, the interface with `GetTriggers` and `Extract`. -/
structure Plugin where
  GetTriggers : BuildConfig → Except GoError (List WebHookTrigger)
  Extract : BuildConfig → WebHookTrigger → Request → Extracted

/-! ## Strings -/

/-- Go: `strings.TrimPrefix(s, "/")` on the characters of `s`: one leading
separator is removed when there is one. -/
def trimPrefixChars (sep : Char) : List Char → List Char
  | [] => []
  | c :: cs => if c = sep then cs else c :: cs

/-- Go: `strings.Split(s, "/")` on the characters of `s`: the segments between
the separators, in order; the empty string gives one empty segment. -/
def splitChars (sep : Char) : List Char → List (List Char)
  | [] => [[]]
  | c :: cs =>
    if c = sep then [] :: splitChars sep cs
    else
      match splitChars sep cs with
      | [] => [[c]]
      | seg :: rest => (c :: seg) :: rest

/-- Go: `strings.TrimPrefix(s, "/")`. -/
def TrimPrefix (s : String) : String :=
  String.mk (trimPrefixChars '/' s.data)

/-- Go: `strings.Split(s, "/")`. -/
def Split (s : String) : List String :=
  (splitChars '/' s.data).map String.mk

/-! ## The handler -/

/-- What the handler does to the outside, in program order. -/
inductive Event where
  /-- `w.buildConfigClient.BuildConfigs(namespace).Get(ctx, name, ...)` -/
  | Get (ns name : String)
  /-- `plugin.GetTriggers(config)` of the plugin registered as `hookType` -/
  | GetTriggers (hookType : String) (config : BuildConfig)
  /-- `klog.V(4).Infof(...)` -/
  | Infof (message : Formatted)
  /-- `webhook.CheckSecret(ctx, namespace, secret, triggers, w.secretsClient)`;
  the secrets client is handed to nothing else -/
  | CheckSecret (ns secret : String) (triggers : List WebHookTrigger)
  /-- `plugin.Extract(config, trigger, req)` of the plugin registered as `hookType` -/
  | Extract (hookType : String) (config : BuildConfig) (trigger : WebHookTrigger) (req : Request)
  /-- `w.instantiator.BuildConfigs(namespace).Instantiate(ctx, buildConfigName, request, ...)` -/
  | Instantiate (ns buildConfigName : String) (request : BuildRequest)
  /-- `utilruntime.HandleError(err)` -/
  | HandleError (err : GoError)
  /-- `writer.Write(bytes)` -/
  | Write (bytes : String)
  /-- `w.WriteHeader(code)` -/
  | WriteHeader (code : Nat)
  /-- `h.responder.Error(err)` -/
  | ResponderError (err : GoError)
deriving DecidableEq, Repr

/-- Go: `WebHookHandler`, with the answers of its collaborators.
`secretsClient` is only ever passed on to `CheckSecret`, so the answer of
`CheckSecret` stands for both. -/
structure WebHookHandler where
  ctx : Context
  name : String
  /-- `h.options.Path` -/
  optionsPath : String
  groupVersion : GroupVersion
  /-- `map[string]webhook.Plugin` -/
  plugins : List (String × Plugin)
  /-- `buildConfigClient.BuildConfigs(namespace).Get(ctx, name, ...)` -/
  Get : String → String → Except GoError BuildConfig
  /-- `webhook.CheckSecret(ctx, namespace, secret, triggers, secretsClient)` -/
  CheckSecret : String → String → List WebHookTrigger → Except GoError WebHookTrigger
  /-- `webhook.GenerateBuildTriggerInfo(revision, hookType)` -/
  GenerateBuildTriggerInfo : Option SourceRevision → String → List BuildTriggerCause
  /-- `instantiator.BuildConfigs(namespace).Instantiate(ctx, buildConfigName, request, ...)` -/
  Instantiate : String → String → BuildRequest → Except GoError Build
  /-- `runtime.Encode(webhookEncodingCodecFactory.LegacyCodec(groupVersion), build)` -/
  Encode : GroupVersion → Build → Except GoError String

/-- The error a call returns (`none` is nil) and the events it caused. -/
structure Outcome where
  err : Option GoError
  trace : List Event
deriving DecidableEq, Repr

/-- The message of every `errors.NewUnauthorized` of `ProcessWebHook`. -/
def secretNotAccepted (hookType name : String) : GoError :=
  .NewUnauthorized (Sprintf "the webhook %q for %q did not accept your secret" [hookType, name])

/-- Go: `(*WebHookHandler).ProcessWebHook(writer, req, ctx, name, subpath)`. -/
def ProcessWebHook (w : WebHookHandler) (req : Request) (ctx : Context)
    (name subpath : String) : Outcome :=
  let parts := Split (TrimPrefix subpath)
  if parts.length ≠ 2 then
    ⟨some (.NewBadRequest (Sprintf "unexpected hook subpath %s" [subpath])), []⟩
  else
    let secret := parts.getD 0 ""
    let hookType := parts.getD 1 ""
    match w.plugins.lookup hookType with
    | none => ⟨some (.NewNotFound (build.Resource "buildconfighook") hookType), []⟩
    | some plugin =>
      let t1 := [Event.Get (NamespaceValue ctx) name]
      match w.Get (NamespaceValue ctx) name with
      | .error _ => ⟨some (secretNotAccepted hookType name), t1⟩
      | .ok config =>
        let t2 := t1 ++ [Event.GetTriggers hookType config]
        match plugin.GetTriggers config with
        | .error _ => ⟨some (secretNotAccepted hookType name), t2⟩
        | .ok triggers =>
          let t3 := t2 ++
            [Event.Infof (Sprintf "checking secret for %q webhook trigger of buildconfig %s/%s"
                [hookType, config.Namespace, config.Name]),
             Event.CheckSecret config.Namespace secret triggers]
          match w.CheckSecret config.Namespace secret triggers with
          | .error _ => ⟨some (secretNotAccepted hookType name), t3⟩
          | .ok trigger =>
            let t4 := t3 ++ [Event.Extract hookType config trigger req]
            let r := plugin.Extract config trigger req
            if !r.proceed then
              match r.err with
              | some .ErrSecretMismatch => ⟨some (secretNotAccepted hookType name), t4⟩
              | some .ErrHookNotEnabled => ⟨some (secretNotAccepted hookType name), t4⟩
              | some .MethodNotSupported =>
                ⟨some (.NewMethodNotSupported (build.Resource "buildconfighook") req.Method), t4⟩
              | some e =>
                if !e.isStatusError then
                  ⟨some (.NewInternalError (.Errorf "hook failed: %v" e)), t4⟩
                else ⟨some e, t4⟩
              | none => ⟨none, t4⟩
            else
              let warning := r.err
              let buildTriggerCauses := w.GenerateBuildTriggerInfo r.revision hookType
              let request : BuildRequest :=
                { TriggeredBy := buildTriggerCauses
                  Name := name
                  Revision := r.revision
                  Env := r.envvars
                  DockerStrategyOptions := r.dockerStrategyOptions }
              let t5 := t4 ++ [Event.Instantiate config.Namespace config.Namespace request]
              match w.Instantiate config.Namespace config.Namespace request with
              | .error err =>
                ⟨some (.NewInternalError (.Errorf "could not generate a build: %v" err)), t5⟩
              | .ok newBuild =>
                match w.Encode w.groupVersion newBuild with
                | .error err => ⟨warning, t5 ++ [Event.HandleError err]⟩
                | .ok newBuildEncoded => ⟨warning, t5 ++ [Event.Write newBuildEncoded]⟩

/-- Go: `(*WebHookHandler).ServeHTTP(w, r)`; the result is the trace of the
whole call. -/
def ServeHTTP (h : WebHookHandler) (r : Request) : List Event :=
  let o := ProcessWebHook h r h.ctx h.name h.optionsPath
  match o.err with
  | some err => o.trace ++ [Event.ResponderError err]
  | none => o.trace ++ [Event.WriteHeader 200]

/-! ## Reading a trace -/

/-- The number of `Instantiate` calls in a trace. -/
def instantiations : List Event → Nat
  | [] => 0
  | .Instantiate _ _ _ :: t => instantiations t + 1
  | _ :: t => instantiations t

/-- The `Instantiate` calls of a trace: the namespace the client is taken
for, the build configuration name passed, and the request. -/
def instantiated : List Event → List (String × String × BuildRequest)
  | [] => []
  | .Instantiate ns buildConfigName request :: t =>
    (ns, buildConfigName, request) :: instantiated t
  | _ :: t => instantiated t

/-- What was written to the response body. -/
def written : List Event → List String
  | [] => []
  | .Write bytes :: t => bytes :: written t
  | _ :: t => written t

/-- The number of `Extract` calls in a trace. -/
def extractions : List Event → Nat
  | [] => 0
  | .Extract _ _ _ _ :: t => extractions t + 1
  | _ :: t => extractions t

/-- The status of the HTTP response a trace leaves, by the contract of
`http.ResponseWriter`: the header is sent once, by the first action on the
response. A `Write` that comes first sends it with status 200
(`http.StatusOK`), a `WriteHeader(code)` that comes first sends `code`, and a
`responder.Error(err)` that comes first answers with the status the responder
gives to `err`, which is the parameter `errorStatus`. Whatever follows cannot
change the status. `none`: nothing was sent. -/
def responseStatus (errorStatus : GoError → Nat) : List Event → Option Nat
  | [] => none
  | .Write _ :: _ => some 200
  | .WriteHeader code :: _ => some code
  | .ResponderError err :: _ => some (errorStatus err)
  | _ :: t => responseStatus errorStatus t

/-- The calls that reach the build-configuration store, a plugin, the secret
store (through `CheckSecret`) or the instantiator. -/
def Event.isCollaboratorCall : Event → Bool
  | .Get _ _ => true
  | .GetTriggers _ _ => true
  | .CheckSecret _ _ _ => true
  | .Extract _ _ _ _ => true
  | .Instantiate _ _ _ => true
  | _ => false

/-! ## Sample collaborators -/

/-- A plugin that offers the triggers of its hook type and extracts `r`. -/
def samplePlugin (hookType : String) (r : Extracted) : Plugin where
  GetTriggers := fun config =>
    match (config.Triggers.filter (fun t => t.1 == hookType)).map Prod.snd with
    | [] => .error (.plain "no triggers")
    | ts => .ok ts
  Extract := fun _ _ _ => r

/-- The build configuration `default/cfg1` with one `generic` trigger of secret `abc`. -/
def cfg1 : BuildConfig :=
  ⟨"default", "cfg1", [("generic", ⟨"abc", false, none⟩)]⟩

/-- A handler on `cfg1` whose `generic` plugin extracts `r`: the store knows
`default/cfg1` only, a secret is accepted when a trigger holds it by value. -/
def sampleHandler (r : Extracted) (path : String) : WebHookHandler where
  ctx := ⟨"default"⟩
  name := "cfg1"
  optionsPath := path
  groupVersion := ⟨"build.openshift.io", "v1"⟩
  plugins := [("generic", samplePlugin "generic" r)]
  Get := fun ns name =>
    if ns = "default" ∧ name = "cfg1" then .ok cfg1 else .error (.NewNotFound (build.Resource "buildconfigs") name)
  CheckSecret := fun _ secret triggers =>
    match triggers.find? (fun t => t.Secret == secret) with
    | some t => .ok t
    | none => .error .ErrSecretMismatch
  GenerateBuildTriggerInfo := fun revision hookType => [⟨"webhook", hookType, revision⟩]
  Instantiate := fun ns _ request => .ok ⟨ns, request.Name ++ "-1"⟩
  Encode := fun _ b => .ok b.Name

/-- A `POST` with an empty body. -/
def post : Request := ⟨"POST", [], ""⟩

/-- Extraction that proceeds with no revision and no warning. -/
def proceedPlain : Extracted := ⟨none, [], none, true, none⟩

/-- Extraction that stops without an error (an ignored event). -/
def ignored : Extracted := ⟨none, [], none, false, none⟩

/-- Extraction that stops with the error `e`. -/
def stoppedWith (e : GoError) : Extracted := ⟨none, [], none, false, some e⟩

/-- Extraction that proceeds with a revision, one variable and no options. -/
def proceedRevision : Extracted :=
  ⟨some ⟨"c0ffee", "fix"⟩, [⟨"A", "1"⟩], none, true, none⟩

/-- The trigger of `cfg1`. -/
def trigger1 : WebHookTrigger := ⟨"abc", false, none⟩

/-- Extraction that proceeds and attaches a warning. -/
def proceedWarning : Extracted :=
  ⟨none, [], none, true, some (.status "" "ref ignored")⟩

/-- Extraction that proceeds and attaches a warning that is no status error. -/
def proceedPlainWarning : Extracted :=
  ⟨none, [], none, true, some (.plain "ref ignored")⟩

/-- A responder that answers the errors of the `errors` constructors with their
HTTP status and every other error with 500. -/
def sampleErrorStatus : GoError → Nat
  | .NewBadRequest _ => 400
  | .NewUnauthorized _ => 401
  | .NewNotFound _ _ => 404
  | .NewMethodNotSupported _ _ => 405
  | _ => 500

/-- The sample handler with an instantiator that fails. -/
def sampleHandlerNoBuild (r : Extracted) (path : String) : WebHookHandler :=
  { sampleHandler r path with Instantiate := fun _ _ _ => .error (.plain "quota exceeded") }

/-- The sample handler with an encoder that fails. -/
def sampleHandlerNoCodec (r : Extracted) (path : String) : WebHookHandler :=
  { sampleHandler r path with Encode := fun _ _ => .error (.plain "no kind registered") }

/-! ## The stages of a dispatch -/

/-- The secret is not verified: the fetch of the configuration fails, or it
succeeds and `GetTriggers` fails, or both succeed and `CheckSecret` fails. -/
def verificationFails (w : WebHookHandler) (ctx : Context) (name secret : String)
    (plugin : Plugin) : Prop :=
  (∃ e, w.Get (NamespaceValue ctx) name = .error e) ∨
  (∃ config e, w.Get (NamespaceValue ctx) name = .ok config ∧
    plugin.GetTriggers config = .error e) ∨
  (∃ config triggers e, w.Get (NamespaceValue ctx) name = .ok config ∧
    plugin.GetTriggers config = .ok triggers ∧
    w.CheckSecret config.Namespace secret triggers = .error e)

/-- The secret is verified: the configuration is fetched, the plugin gives its
triggers and `CheckSecret` returns the matching trigger. -/
def verified (w : WebHookHandler) (ctx : Context) (name secret : String)
    (plugin : Plugin) (config : BuildConfig) (triggers : List WebHookTrigger)
    (trigger : WebHookTrigger) : Prop :=
  w.Get (NamespaceValue ctx) name = .ok config ∧
  plugin.GetTriggers config = .ok triggers ∧
  w.CheckSecret config.Namespace secret triggers = .ok trigger

/-- The events of a dispatch up to and including the call of `Extract`. -/
def traceToExtract (ctx : Context) (name secret hookType : String) (config : BuildConfig)
    (triggers : List WebHookTrigger) (trigger : WebHookTrigger) (req : Request) : List Event :=
  [Event.Get (NamespaceValue ctx) name,
   Event.GetTriggers hookType config,
   Event.Infof (Sprintf "checking secret for %q webhook trigger of buildconfig %s/%s"
     [hookType, config.Namespace, config.Name]),
   Event.CheckSecret config.Namespace secret triggers,
   Event.Extract hookType config trigger req]

/-- The `BuildRequest` assembled from what `Extract` returned. -/
def requestOf (w : WebHookHandler) (name hookType : String) (r : Extracted) : BuildRequest :=
  { TriggeredBy := w.GenerateBuildTriggerInfo r.revision hookType
    Name := name
    Revision := r.revision
    Env := r.envvars
    DockerStrategyOptions := r.dockerStrategyOptions }

end buildconfig

/-! # Watch cache sizes

A shallow embedding of `newHeuristicWatchCacheSizes` and `maxInt` of
`pkg/cmd/openshift-apiserver/openshiftapiserver/etcd.go`.  A Go `int` is a 64-bit
two's complement integer: a product is reduced into that range.  The map is a
list of entries with distinct keys. -/

namespace openshiftapiserver

open buildconfig (GroupResource)

/-- The value a Go `int` holds after an operation whose exact result is `x`. -/
def wrapInt (x : Int) : Int :=
  (x + 2 ^ 63) % 2 ^ 64 - 2 ^ 63

/-- Go: `maxInt(a, b)`. -/
def maxInt (a b : Int) : Int :=
  if a > b then a else b

/-- Go: `m[key] = value` on a `map[schema.GroupResource]int`. -/
def mapSet (m : List (GroupResource × Int)) (key : GroupResource) (value : Int) :
    List (GroupResource × Int) :=
  (key, value) :: m.filter (fun e => e.1 ≠ key)

/-- Go: `newHeuristicWatchCacheSizes(expectedRAMCapacityMB)`; the division of
Go truncates toward zero. -/
def newHeuristicWatchCacheSizes (expectedRAMCapacityMB : Int) : List (GroupResource × Int) :=
  let clusterSize := wrapInt (Int.tdiv expectedRAMCapacityMB 60)
  let watchCacheSizes : List (GroupResource × Int) := []
  let watchCacheSizes := mapSet watchCacheSizes ⟨"network.openshift.io", "hostsubnets"⟩
    (maxInt (wrapInt (5 * clusterSize)) 100)
  let watchCacheSizes := mapSet watchCacheSizes ⟨"network.openshift.io", "netnamespaces"⟩
    (maxInt (wrapInt (5 * clusterSize)) 100)
  let watchCacheSizes := mapSet watchCacheSizes
    ⟨"network.openshift.io", "egressnetworkpolicies"⟩ (maxInt (wrapInt (10 * clusterSize)) 100)
  watchCacheSizes

end openshiftapiserver

namespace buildconfig

/-! ## Splitting -/

theorem splitChars_length (sep : Char) (cs : List Char) :
    (splitChars sep cs).length = cs.count sep + 1 := by
  induction cs with
  | nil => simp [splitChars]
  | cons c cs ih =>
    by_cases h : c = sep
    · subst h
      simp [splitChars, ih]
    · have h2 : (c == sep) = false := by simpa using h
      rw [List.count_cons, h2]
      simp only [splitChars, if_neg h]
      cases hs : splitChars sep cs with
      | nil => simp [hs] at ih
      | cons seg rest => simpa [hs] using ih

theorem Split_length (s : String) : (Split s).length = s.data.count '/' + 1 := by
  simp [Split, splitChars_length]

/-! ## The outcome of each stage -/

theorem outcome_malformed (w : WebHookHandler) (req : Request) (ctx : Context)
    (name subpath : String) (h : (Split (TrimPrefix subpath)).length ≠ 2) :
    ProcessWebHook w req ctx name subpath =
      ⟨some (.NewBadRequest (Sprintf "unexpected hook subpath %s" [subpath])), []⟩ := by
  unfold ProcessWebHook
  simp [h]

theorem outcome_unknown (w : WebHookHandler) (req : Request) (ctx : Context)
    (name subpath secret hookType : String)
    (hp : Split (TrimPrefix subpath) = [secret, hookType])
    (hr : w.plugins.lookup hookType = none) :
    ProcessWebHook w req ctx name subpath =
      ⟨some (.NewNotFound (build.Resource "buildconfighook") hookType), []⟩ := by
  unfold ProcessWebHook
  simp [hp, hr]

theorem outcome_verificationFails (w : WebHookHandler) (req : Request) (ctx : Context)
    (name subpath secret hookType : String) (plugin : Plugin)
    (hp : Split (TrimPrefix subpath) = [secret, hookType])
    (hr : w.plugins.lookup hookType = some plugin)
    (hf : verificationFails w ctx name secret plugin) :
    (ProcessWebHook w req ctx name subpath).err = some (secretNotAccepted hookType name) ∧
    (ProcessWebHook w req ctx name subpath).trace.head? =
      some (Event.Get (NamespaceValue ctx) name) ∧
    extractions (ProcessWebHook w req ctx name subpath).trace = 0 ∧
    instantiations (ProcessWebHook w req ctx name subpath).trace = 0 ∧
    written (ProcessWebHook w req ctx name subpath).trace = [] := by
  unfold ProcessWebHook
  rcases hf with ⟨e, h1⟩ | ⟨config, e, h1, h2⟩ | ⟨config, triggers, e, h1, h2, h3⟩
  · simp [hp, hr, h1, extractions, instantiations, written]
  · simp [hp, hr, h1, h2, extractions, instantiations, written]
  · simp [hp, hr, h1, h2, h3, extractions, instantiations, written]

theorem outcome_stop (w : WebHookHandler) (req : Request) (ctx : Context)
    (name subpath secret hookType : String) (plugin : Plugin) (config : BuildConfig)
    (triggers : List WebHookTrigger) (trigger : WebHookTrigger)
    (hp : Split (TrimPrefix subpath) = [secret, hookType])
    (hr : w.plugins.lookup hookType = some plugin)
    (hv : verified w ctx name secret plugin config triggers trigger)
    (hs : (plugin.Extract config trigger req).proceed = false) :
    ProcessWebHook w req ctx name subpath =
      ⟨match (plugin.Extract config trigger req).err with
        | some .ErrSecretMismatch => some (secretNotAccepted hookType name)
        | some .ErrHookNotEnabled => some (secretNotAccepted hookType name)
        | some .MethodNotSupported =>
          some (.NewMethodNotSupported (build.Resource "buildconfighook") req.Method)
        | some e =>
          if e.isStatusError then some e
          else some (.NewInternalError (.Errorf "hook failed: %v" e))
        | none => none,
       traceToExtract ctx name secret hookType config triggers trigger req⟩ := by
  obtain ⟨h1, h2, h3⟩ := hv
  unfold ProcessWebHook
  simp [hp, hr, h1, h2, h3, hs, traceToExtract]
  cases herr : (plugin.Extract config trigger req).err with
  | none => simp
  | some e => cases e <;> simp [GoError.isStatusError]

theorem outcome_proceed (w : WebHookHandler) (req : Request) (ctx : Context)
    (name subpath secret hookType : String) (plugin : Plugin) (config : BuildConfig)
    (triggers : List WebHookTrigger) (trigger : WebHookTrigger)
    (hp : Split (TrimPrefix subpath) = [secret, hookType])
    (hr : w.plugins.lookup hookType = some plugin)
    (hv : verified w ctx name secret plugin config triggers trigger)
    (hs : (plugin.Extract config trigger req).proceed = true) :
    ProcessWebHook w req ctx name subpath =
      match w.Instantiate config.Namespace config.Namespace
          (requestOf w name hookType (plugin.Extract config trigger req)) with
      | .error err =>
        ⟨some (.NewInternalError (.Errorf "could not generate a build: %v" err)),
         traceToExtract ctx name secret hookType config triggers trigger req ++
           [Event.Instantiate config.Namespace config.Namespace
             (requestOf w name hookType (plugin.Extract config trigger req))]⟩
      | .ok newBuild =>
        ⟨(plugin.Extract config trigger req).err,
         traceToExtract ctx name secret hookType config triggers trigger req ++
           [Event.Instantiate config.Namespace config.Namespace
             (requestOf w name hookType (plugin.Extract config trigger req)),
            match w.Encode w.groupVersion newBuild with
            | .error err => Event.HandleError err
            | .ok newBuildEncoded => Event.Write newBuildEncoded]⟩ := by
  obtain ⟨h1, h2, h3⟩ := hv
  unfold ProcessWebHook
  simp [hp, hr, h1, h2, h3, hs, traceToExtract, requestOf]
  cases hi : w.Instantiate config.Namespace config.Namespace
      (requestOf w name hookType (plugin.Extract config trigger req)) with
  | error err => simp [requestOf] at hi ⊢; simp [hi]
  | ok newBuild =>
    simp [requestOf] at hi ⊢
    simp [hi]
    cases w.Encode w.groupVersion newBuild <;> simp

theorem outcome_registered_head (w : WebHookHandler) (req : Request) (ctx : Context)
    (name subpath secret hookType : String) (plugin : Plugin)
    (hp : Split (TrimPrefix subpath) = [secret, hookType])
    (hr : w.plugins.lookup hookType = some plugin) :
    (ProcessWebHook w req ctx name subpath).trace.head? =
      some (Event.Get (NamespaceValue ctx) name) := by
  cases h1 : w.Get (NamespaceValue ctx) name with
  | error e => exact (outcome_verificationFails w req ctx name subpath secret hookType plugin
      hp hr (Or.inl ⟨e, h1⟩)).2.1
  | ok config =>
    cases h2 : plugin.GetTriggers config with
    | error e => exact (outcome_verificationFails w req ctx name subpath secret hookType plugin
        hp hr (Or.inr (Or.inl ⟨config, e, h1, h2⟩))).2.1
    | ok triggers =>
      cases h3 : w.CheckSecret config.Namespace secret triggers with
      | error e => exact (outcome_verificationFails w req ctx name subpath secret hookType plugin
          hp hr (Or.inr (Or.inr ⟨config, triggers, e, h1, h2, h3⟩))).2.1
      | ok trigger =>
        have hv : verified w ctx name secret plugin config triggers trigger := ⟨h1, h2, h3⟩
        cases hs : (plugin.Extract config trigger req).proceed with
        | false =>
          rw [outcome_stop w req ctx name subpath secret hookType plugin config triggers
            trigger hp hr hv hs]
          simp [traceToExtract]
        | true =>
          rw [outcome_proceed w req ctx name subpath secret hookType plugin config triggers
            trigger hp hr hv hs]
          cases w.Instantiate config.Namespace config.Namespace
            (requestOf w name hookType (plugin.Extract config trigger req)) <;>
            simp [traceToExtract]

theorem outcome_checks_secret (w : WebHookHandler) (req : Request) (ctx : Context)
    (name subpath secret hookType : String) (plugin : Plugin) (config : BuildConfig)
    (triggers : List WebHookTrigger)
    (hp : Split (TrimPrefix subpath) = [secret, hookType])
    (hr : w.plugins.lookup hookType = some plugin)
    (h1 : w.Get (NamespaceValue ctx) name = .ok config)
    (h2 : plugin.GetTriggers config = .ok triggers) :
    (ProcessWebHook w req ctx name subpath).trace.take 4 =
      [Event.Get (NamespaceValue ctx) name,
       Event.GetTriggers hookType config,
       Event.Infof (Sprintf "checking secret for %q webhook trigger of buildconfig %s/%s"
         [hookType, config.Namespace, config.Name]),
       Event.CheckSecret config.Namespace secret triggers] := by
  cases h3 : w.CheckSecret config.Namespace secret triggers with
  | error e =>
    unfold ProcessWebHook
    simp [hp, hr, h1, h2, h3]
  | ok trigger =>
    have hv : verified w ctx name secret plugin config triggers trigger := ⟨h1, h2, h3⟩
    cases hs : (plugin.Extract config trigger req).proceed with
    | false =>
      rw [outcome_stop w req ctx name subpath secret hookType plugin config triggers
        trigger hp hr hv hs]
      simp [traceToExtract]
    | true =>
      rw [outcome_proceed w req ctx name subpath secret hookType plugin config triggers
        trigger hp hr hv hs]
      cases w.Instantiate config.Namespace config.Namespace
        (requestOf w name hookType (plugin.Extract config trigger req)) <;>
        simp [traceToExtract]

theorem parts_of_length_two (subpath : String)
    (h : (Split (TrimPrefix subpath)).length = 2) :
    ∃ secret hookType, Split (TrimPrefix subpath) = [secret, hookType] := by
  match hm : Split (TrimPrefix subpath), h with
  | [a, b], _ => exact ⟨a, b, rfl⟩

/-! ## The claims -/

/-- C1: information hiding.  Two dispatches for the same hook type and the same
configuration name, each of which fails before the secret is verified (in
either one the fetch of the configuration fails, or the plugin's `GetTriggers`
fails, or `CheckSecret` fails), return the same error: `errors.NewUnauthorized`
on the message made of `hookType` and `name` alone. -/
theorem unverified_errors_agree (w₁ w₂ : WebHookHandler) (req₁ req₂ : Request)
    (ctx₁ ctx₂ : Context) (name subpath₁ subpath₂ secret₁ secret₂ hookType : String)
    (plugin₁ plugin₂ : Plugin)
    (hp₁ : Split (TrimPrefix subpath₁) = [secret₁, hookType])
    (hp₂ : Split (TrimPrefix subpath₂) = [secret₂, hookType])
    (hr₁ : w₁.plugins.lookup hookType = some plugin₁)
    (hr₂ : w₂.plugins.lookup hookType = some plugin₂)
    (hf₁ : verificationFails w₁ ctx₁ name secret₁ plugin₁)
    (hf₂ : verificationFails w₂ ctx₂ name secret₂ plugin₂) :
    (ProcessWebHook w₁ req₁ ctx₁ name subpath₁).err =
      (ProcessWebHook w₂ req₂ ctx₂ name subpath₂).err ∧
    (ProcessWebHook w₁ req₁ ctx₁ name subpath₁).err =
      some (.NewUnauthorized
        (Sprintf "the webhook %q for %q did not accept your secret" [hookType, name])) := by
  have e₁ := (outcome_verificationFails w₁ req₁ ctx₁ name subpath₁ secret₁ hookType plugin₁
    hp₁ hr₁ hf₁).1
  have e₂ := (outcome_verificationFails w₂ req₂ ctx₂ name subpath₂ secret₂ hookType plugin₂
    hp₂ hr₂ hf₂).1
  exact ⟨e₁.trans e₂.symm, e₁⟩

/-- C2: a subpath that, after removal of one leading `/`, splits on `/` into 0,
1 or at least 3 segments is answered with `errors.NewBadRequest` on
"unexpected hook subpath"; the trace is empty: no collaborator is called and
nothing is written. -/
theorem malformed_rejected (w : WebHookHandler) (req : Request) (ctx : Context)
    (name subpath : String)
    (h : (Split (TrimPrefix subpath)).length = 0 ∨ (Split (TrimPrefix subpath)).length = 1 ∨
      3 ≤ (Split (TrimPrefix subpath)).length) :
    ProcessWebHook w req ctx name subpath =
      ⟨some (.NewBadRequest (Sprintf "unexpected hook subpath %s" [subpath])), []⟩ :=
  outcome_malformed w req ctx name subpath (by omega)

/-- C3, as the code has it: a subpath is rejected as malformed (`NewBadRequest`
with nothing called) exactly when, after removal of one leading `/`, it does not
split into exactly two segments, that is when it does not hold exactly one `/`.
Segments may be empty: whatever the two segments are, an unregistered hook type
is answered with `NewNotFound`, and for a registered one the configuration is
fetched first and, when the fetch and `GetTriggers` succeed, the first segment
is the secret handed to `CheckSecret`. -/
theorem malformed_iff_not_two_segments (w : WebHookHandler) (req : Request) (ctx : Context)
    (name subpath : String) :
    (ProcessWebHook w req ctx name subpath =
        ⟨some (.NewBadRequest (Sprintf "unexpected hook subpath %s" [subpath])), []⟩ ↔
      (Split (TrimPrefix subpath)).length ≠ 2) ∧
    ((Split (TrimPrefix subpath)).length ≠ 2 ↔ (TrimPrefix subpath).data.count '/' ≠ 1) ∧
    (∀ secret hookType, Split (TrimPrefix subpath) = [secret, hookType] →
      (w.plugins.lookup hookType = none →
        ProcessWebHook w req ctx name subpath =
          ⟨some (.NewNotFound (build.Resource "buildconfighook") hookType), []⟩) ∧
      (∀ plugin, w.plugins.lookup hookType = some plugin →
        (ProcessWebHook w req ctx name subpath).trace.head? =
          some (Event.Get (NamespaceValue ctx) name) ∧
        ∀ config triggers, w.Get (NamespaceValue ctx) name = .ok config →
          plugin.GetTriggers config = .ok triggers →
          (ProcessWebHook w req ctx name subpath).trace.take 4 =
            [Event.Get (NamespaceValue ctx) name,
             Event.GetTriggers hookType config,
             Event.Infof
               (Sprintf "checking secret for %q webhook trigger of buildconfig %s/%s"
                 [hookType, config.Namespace, config.Name]),
             Event.CheckSecret config.Namespace secret triggers])) := by
  refine ⟨⟨?_, outcome_malformed w req ctx name subpath⟩, ?_, ?_⟩
  · intro ho hl
    obtain ⟨secret, hookType, hp⟩ := parts_of_length_two subpath (by omega)
    cases hr : w.plugins.lookup hookType with
    | none =>
      rw [outcome_unknown w req ctx name subpath secret hookType hp hr] at ho
      simp at ho
    | some plugin =>
      have hh := outcome_registered_head w req ctx name subpath secret hookType plugin hp hr
      rw [ho] at hh
      simp at hh
  · rw [Split_length]
    omega
  · intro secret hookType hp
    exact ⟨outcome_unknown w req ctx name subpath secret hookType hp,
      fun plugin hr =>
        ⟨outcome_registered_head w req ctx name subpath secret hookType plugin hp hr,
         fun config triggers h1 h2 =>
          outcome_checks_secret w req ctx name subpath secret hookType plugin config triggers
            hp hr h1 h2⟩⟩

/-- C4: on a subpath of exactly two segments whose hook type is not a key of the
plugin registry the answer is `errors.NewNotFound` for the resource
`buildconfighook` and that hook type; the trace is empty: neither the store, nor
the secret store, nor the instantiator is called. -/
theorem unknown_hook_type_not_found (w : WebHookHandler) (req : Request) (ctx : Context)
    (name subpath secret hookType : String)
    (hp : Split (TrimPrefix subpath) = [secret, hookType])
    (hr : w.plugins.lookup hookType = none) :
    ProcessWebHook w req ctx name subpath =
      ⟨some (.NewNotFound ⟨"build.openshift.io", "buildconfighook"⟩ hookType), []⟩ :=
  outcome_unknown w req ctx name subpath secret hookType hp hr

/-- C5: when the fetch of the configuration, `GetTriggers` or `CheckSecret`
fails, the answer is the `NewUnauthorized` error, `Extract` is not called,
`Instantiate` is not called and nothing is written to the response. -/
theorem unverified_never_extracts (w : WebHookHandler) (req : Request) (ctx : Context)
    (name subpath secret hookType : String) (plugin : Plugin)
    (hp : Split (TrimPrefix subpath) = [secret, hookType])
    (hr : w.plugins.lookup hookType = some plugin)
    (hf : verificationFails w ctx name secret plugin) :
    (ProcessWebHook w req ctx name subpath).err =
      some (.NewUnauthorized
        (Sprintf "the webhook %q for %q did not accept your secret" [hookType, name])) ∧
    extractions (ProcessWebHook w req ctx name subpath).trace = 0 ∧
    instantiations (ProcessWebHook w req ctx name subpath).trace = 0 ∧
    written (ProcessWebHook w req ctx name subpath).trace = [] := by
  have h := outcome_verificationFails w req ctx name subpath secret hookType plugin hp hr hf
  exact ⟨h.1, h.2.2⟩

/-- C6: after the secret is verified, when `Extract` returns `proceed = false`:
with `ErrSecretMismatch` or `ErrHookNotEnabled` the answer is the
`NewUnauthorized` error on `hookType` and `name`, equal to the answer of any
dispatch for the same hook type and name whose secret check fails; with
`MethodNotSupported` the answer is `errors.NewMethodNotSupported` for the
resource `buildconfighook` and the method of the request. -/
theorem stop_on_known_reason (w : WebHookHandler) (req : Request) (ctx : Context)
    (name subpath secret hookType : String) (plugin : Plugin) (config : BuildConfig)
    (triggers : List WebHookTrigger) (trigger : WebHookTrigger)
    (hp : Split (TrimPrefix subpath) = [secret, hookType])
    (hr : w.plugins.lookup hookType = some plugin)
    (hv : verified w ctx name secret plugin config triggers trigger)
    (hs : (plugin.Extract config trigger req).proceed = false) :
    (((plugin.Extract config trigger req).err = some .ErrSecretMismatch ∨
        (plugin.Extract config trigger req).err = some .ErrHookNotEnabled) →
      (ProcessWebHook w req ctx name subpath).err =
        some (.NewUnauthorized
          (Sprintf "the webhook %q for %q did not accept your secret" [hookType, name])) ∧
      ∀ (w₂ : WebHookHandler) (req₂ : Request) (ctx₂ : Context) (subpath₂ secret₂ : String)
        (plugin₂ : Plugin), Split (TrimPrefix subpath₂) = [secret₂, hookType] →
        w₂.plugins.lookup hookType = some plugin₂ →
        verificationFails w₂ ctx₂ name secret₂ plugin₂ →
        (ProcessWebHook w req ctx name subpath).err =
          (ProcessWebHook w₂ req₂ ctx₂ name subpath₂).err) ∧
    ((plugin.Extract config trigger req).err = some .MethodNotSupported →
      (ProcessWebHook w req ctx name subpath).err =
        some (.NewMethodNotSupported ⟨"build.openshift.io", "buildconfighook"⟩ req.Method)) := by
  rw [outcome_stop w req ctx name subpath secret hookType plugin config triggers trigger
    hp hr hv hs]
  refine ⟨fun he => ?_, fun he => ?_⟩
  · have hu : (match (plugin.Extract config trigger req).err with
        | some .ErrSecretMismatch => some (secretNotAccepted hookType name)
        | some .ErrHookNotEnabled => some (secretNotAccepted hookType name)
        | some .MethodNotSupported =>
          some (.NewMethodNotSupported (build.Resource "buildconfighook") req.Method)
        | some e =>
          if e.isStatusError then some e
          else some (.NewInternalError (.Errorf "hook failed: %v" e))
        | none => none) = some (secretNotAccepted hookType name) := by
      rcases he with he | he <;> simp [he]
    refine ⟨hu, ?_⟩
    intro w₂ req₂ ctx₂ subpath₂ secret₂ plugin₂ hp₂ hr₂ hf₂
    rw [(outcome_verificationFails w₂ req₂ ctx₂ name subpath₂ secret₂ hookType plugin₂
      hp₂ hr₂ hf₂).1]
    exact hu
  · simp [he, build.Resource]

/-- C7: after the secret is verified, when `Extract` returns `proceed = false`
with an error that is none of `ErrSecretMismatch`, `ErrHookNotEnabled`,
`MethodNotSupported`: an error that is a `*errors.StatusError` is returned
unchanged, any other error is wrapped as
`errors.NewInternalError(fmt.Errorf("hook failed: %v", err))`. -/
theorem stop_on_other_reason (w : WebHookHandler) (req : Request) (ctx : Context)
    (name subpath secret hookType : String) (plugin : Plugin) (config : BuildConfig)
    (triggers : List WebHookTrigger) (trigger : WebHookTrigger) (e : GoError)
    (hp : Split (TrimPrefix subpath) = [secret, hookType])
    (hr : w.plugins.lookup hookType = some plugin)
    (hv : verified w ctx name secret plugin config triggers trigger)
    (hs : (plugin.Extract config trigger req).proceed = false)
    (he : (plugin.Extract config trigger req).err = some e)
    (hn : e ≠ .ErrSecretMismatch ∧ e ≠ .ErrHookNotEnabled ∧ e ≠ .MethodNotSupported) :
    (e.isStatusError = true → (ProcessWebHook w req ctx name subpath).err = some e) ∧
    (e.isStatusError = false →
      (ProcessWebHook w req ctx name subpath).err =
        some (.NewInternalError (.Errorf "hook failed: %v" e))) := by
  rw [outcome_stop w req ctx name subpath secret hookType plugin config triggers trigger
    hp hr hv hs, he]
  obtain ⟨n1, n2, n3⟩ := hn
  cases e <;> simp_all [GoError.isStatusError]

/-- C8: after the secret is verified, when `Extract` returns `proceed = false`,
with whatever error or none, `Instantiate` is not called and nothing is written
to the response: the trace ends with the call of `Extract`; and with no error
the result is nil. -/
theorem stop_never_instantiates (w : WebHookHandler) (req : Request) (ctx : Context)
    (name subpath secret hookType : String) (plugin : Plugin) (config : BuildConfig)
    (triggers : List WebHookTrigger) (trigger : WebHookTrigger)
    (hp : Split (TrimPrefix subpath) = [secret, hookType])
    (hr : w.plugins.lookup hookType = some plugin)
    (hv : verified w ctx name secret plugin config triggers trigger)
    (hs : (plugin.Extract config trigger req).proceed = false) :
    instantiations (ProcessWebHook w req ctx name subpath).trace = 0 ∧
    written (ProcessWebHook w req ctx name subpath).trace = [] ∧
    (ProcessWebHook w req ctx name subpath).trace.getLast? =
      some (Event.Extract hookType config trigger req) ∧
    ((plugin.Extract config trigger req).err = none →
      (ProcessWebHook w req ctx name subpath).err = none) := by
  rw [outcome_stop w req ctx name subpath secret hookType plugin config triggers trigger
    hp hr hv hs]
  refine ⟨by simp [traceToExtract, instantiations], by simp [traceToExtract, written],
    by simp [traceToExtract], fun he => ?_⟩
  simp [he]

/-- C9, as the code has it: on no request is `Instantiate` called more than
once; when `ProcessWebHook` returns no error the secret was verified, `Extract`
returned no error, and `Instantiate` was called exactly once if `Extract`
returned `proceed = true` and not at all if it returned `proceed = false`; and
`ServeHTTP` ends with `WriteHeader(200)` exactly when `ProcessWebHook` returns
no error. -/
theorem instantiate_at_most_once (w : WebHookHandler) (req : Request) (ctx : Context)
    (name subpath : String) :
    instantiations (ProcessWebHook w req ctx name subpath).trace ≤ 1 ∧
    ((ProcessWebHook w req ctx name subpath).err = none →
      ∃ secret hookType plugin config triggers trigger,
        Split (TrimPrefix subpath) = [secret, hookType] ∧
        w.plugins.lookup hookType = some plugin ∧
        verified w ctx name secret plugin config triggers trigger ∧
        (plugin.Extract config trigger req).err = none ∧
        instantiations (ProcessWebHook w req ctx name subpath).trace =
          if (plugin.Extract config trigger req).proceed then 1 else 0) ∧
    ((ServeHTTP w req).getLast? = some (Event.WriteHeader 200) ↔
      (ProcessWebHook w req w.ctx w.name w.optionsPath).err = none) := by
  refine ⟨?_, ?_, ?_⟩
  · by_cases hl : (Split (TrimPrefix subpath)).length = 2
    · obtain ⟨secret, hookType, hp⟩ := parts_of_length_two subpath hl
      cases hr : w.plugins.lookup hookType with
      | none =>
        rw [outcome_unknown w req ctx name subpath secret hookType hp hr]
        simp [instantiations]
      | some plugin =>
        by_cases hf : verificationFails w ctx name secret plugin
        · rw [(outcome_verificationFails w req ctx name subpath secret hookType plugin
            hp hr hf).2.2.2.1]
          omega
        · cases h1 : w.Get (NamespaceValue ctx) name with
          | error e => exact absurd (Or.inl ⟨e, h1⟩) hf
          | ok config =>
            cases h2 : plugin.GetTriggers config with
            | error e => exact absurd (Or.inr (Or.inl ⟨config, e, h1, h2⟩)) hf
            | ok triggers =>
              cases h3 : w.CheckSecret config.Namespace secret triggers with
              | error e =>
                exact absurd (Or.inr (Or.inr ⟨config, triggers, e, h1, h2, h3⟩)) hf
              | ok trigger =>
                have hv : verified w ctx name secret plugin config triggers trigger :=
                  ⟨h1, h2, h3⟩
                cases hs : (plugin.Extract config trigger req).proceed with
                | false =>
                  rw [outcome_stop w req ctx name subpath secret hookType plugin config
                    triggers trigger hp hr hv hs]
                  simp [traceToExtract, instantiations]
                | true =>
                  rw [outcome_proceed w req ctx name subpath secret hookType plugin config
                    triggers trigger hp hr hv hs]
                  cases w.Instantiate config.Namespace config.Namespace
                    (requestOf w name hookType (plugin.Extract config trigger req)) with
                  | error err => simp [traceToExtract, instantiations]
                  | ok newBuild =>
                    dsimp only
                    cases w.Encode w.groupVersion newBuild <;>
                      simp [traceToExtract, instantiations]
    · rw [outcome_malformed w req ctx name subpath hl]
      simp [instantiations]
  · intro hnone
    by_cases hl : (Split (TrimPrefix subpath)).length = 2
    · obtain ⟨secret, hookType, hp⟩ := parts_of_length_two subpath hl
      cases hr : w.plugins.lookup hookType with
      | none =>
        rw [outcome_unknown w req ctx name subpath secret hookType hp hr] at hnone
        simp at hnone
      | some plugin =>
        by_cases hf : verificationFails w ctx name secret plugin
        · rw [(outcome_verificationFails w req ctx name subpath secret hookType plugin
            hp hr hf).1] at hnone
          simp at hnone
        · cases h1 : w.Get (NamespaceValue ctx) name with
          | error e => exact absurd (Or.inl ⟨e, h1⟩) hf
          | ok config =>
            cases h2 : plugin.GetTriggers config with
            | error e => exact absurd (Or.inr (Or.inl ⟨config, e, h1, h2⟩)) hf
            | ok triggers =>
              cases h3 : w.CheckSecret config.Namespace secret triggers with
              | error e =>
                exact absurd (Or.inr (Or.inr ⟨config, triggers, e, h1, h2, h3⟩)) hf
              | ok trigger =>
                have hv : verified w ctx name secret plugin config triggers trigger :=
                  ⟨h1, h2, h3⟩
                refine ⟨secret, hookType, plugin, config, triggers, trigger, hp, hr, hv, ?_⟩
                cases hs : (plugin.Extract config trigger req).proceed with
                | false =>
                  rw [outcome_stop w req ctx name subpath secret hookType plugin config
                    triggers trigger hp hr hv hs] at hnone ⊢
                  cases he : (plugin.Extract config trigger req).err with
                  | none => simp [traceToExtract, instantiations]
                  | some e =>
                    rw [he] at hnone
                    cases e <;> simp at hnone
                    all_goals (split at hnone <;> simp at hnone)
                | true =>
                  rw [outcome_proceed w req ctx name subpath secret hookType plugin config
                    triggers trigger hp hr hv hs] at hnone ⊢
                  cases hi : w.Instantiate config.Namespace config.Namespace
                    (requestOf w name hookType (plugin.Extract config trigger req)) with
                  | error err =>
                    rw [hi] at hnone
                    simp at hnone
                  | ok newBuild =>
                    rw [hi] at hnone
                    refine ⟨by simpa using hnone, ?_⟩
                    dsimp only
                    cases w.Encode w.groupVersion newBuild <;>
                      simp [traceToExtract, instantiations]
    · rw [outcome_malformed w req ctx name subpath hl] at hnone
      simp at hnone
  · unfold ServeHTTP
    cases he : (ProcessWebHook w req w.ctx w.name w.optionsPath).err <;> simp [he]

/-- C10: after the secret is verified, when `Extract` returns `proceed = true`
with `(revision, env, options)`, `Instantiate` is called once, on the client of
the fetched configuration's namespace, with the request whose `Name` is the
requested name, whose `TriggeredBy` is
`GenerateBuildTriggerInfo(revision, hookType)` and whose `Revision`, `Env` and
`DockerStrategyOptions` are the values `Extract` returned. -/
theorem proceed_hands_over_request (w : WebHookHandler) (req : Request) (ctx : Context)
    (name subpath secret hookType : String) (plugin : Plugin) (config : BuildConfig)
    (triggers : List WebHookTrigger) (trigger : WebHookTrigger)
    (revision : Option SourceRevision) (env : List EnvVar)
    (options : Option DockerStrategyOptions) (warning : Option GoError)
    (hp : Split (TrimPrefix subpath) = [secret, hookType])
    (hr : w.plugins.lookup hookType = some plugin)
    (hv : verified w ctx name secret plugin config triggers trigger)
    (hx : plugin.Extract config trigger req = ⟨revision, env, options, true, warning⟩) :
    instantiated (ProcessWebHook w req ctx name subpath).trace =
      [(config.Namespace, config.Namespace,
        { TriggeredBy := w.GenerateBuildTriggerInfo revision hookType
          Name := name
          Revision := revision
          Env := env
          DockerStrategyOptions := options })] := by
  have hs : (plugin.Extract config trigger req).proceed = true := by rw [hx]
  rw [outcome_proceed w req ctx name subpath secret hookType plugin config triggers trigger
    hp hr hv hs, hx]
  cases w.Instantiate config.Namespace config.Namespace
      (requestOf w name hookType ⟨revision, env, options, true, warning⟩) with
  | error err => simp [traceToExtract, instantiated, requestOf]
  | ok newBuild =>
    dsimp only
    cases w.Encode w.groupVersion newBuild <;> simp [traceToExtract, instantiated, requestOf]

/-! ## The claims at concrete requests -/

/-- A failed fetch (no `cfg1` in the namespace `elsewhere`) and a wrong secret on the
existing `cfg1` are answered with the same error. -/
theorem unverified_errors_agree_witness :
    verificationFails (sampleHandler proceedPlain "") ⟨"elsewhere"⟩ "cfg1" "abc"
      (samplePlugin "generic" proceedPlain) ∧
    verificationFails (sampleHandler ignored "") ⟨"default"⟩ "cfg1" "wrong"
      (samplePlugin "generic" ignored) ∧
    (ProcessWebHook (sampleHandler proceedPlain "") post ⟨"elsewhere"⟩ "cfg1" "abc/generic").err =
      (ProcessWebHook (sampleHandler ignored "") post ⟨"default"⟩ "cfg1" "/wrong/generic").err :=
  have h₁ : verificationFails (sampleHandler proceedPlain "") ⟨"elsewhere"⟩ "cfg1" "abc"
      (samplePlugin "generic" proceedPlain) := Or.inl ⟨_, rfl⟩
  have h₂ : verificationFails (sampleHandler ignored "") ⟨"default"⟩ "cfg1" "wrong"
      (samplePlugin "generic" ignored) :=
    Or.inr (Or.inr ⟨cfg1, [trigger1], .ErrSecretMismatch, rfl, rfl, rfl⟩)
  ⟨h₁, h₂, (unverified_errors_agree (sampleHandler proceedPlain "") (sampleHandler ignored "")
    post post ⟨"elsewhere"⟩ ⟨"default"⟩ "cfg1" "abc/generic" "/wrong/generic" "abc" "wrong"
    "generic" (samplePlugin "generic" proceedPlain) (samplePlugin "generic" ignored)
    (by decide) (by decide) rfl rfl h₁ h₂).1⟩

/-- Three segments are rejected as malformed. -/
theorem malformed_rejected_witness :
    3 ≤ (Split (TrimPrefix "/abc/generic/extra")).length ∧
    ProcessWebHook (sampleHandler proceedPlain "") post ⟨"default"⟩ "cfg1" "/abc/generic/extra" =
      ⟨some (.NewBadRequest (Sprintf "unexpected hook subpath %s" ["/abc/generic/extra"])), []⟩ :=
  ⟨by decide, malformed_rejected (sampleHandler proceedPlain "") post ⟨"default"⟩ "cfg1"
    "/abc/generic/extra" (Or.inr (Or.inr (by decide)))⟩

/-- C3 fails as stated: `abc/` has an empty hook type and `//generic` an empty
secret, and neither is rejected as malformed: the first is answered with
`NewNotFound` for the hook type `""`, the second goes through the secret check
with the secret `""` and is answered with `NewUnauthorized`. -/
theorem empty_segment_not_rejected :
    Split (TrimPrefix "abc/") = ["abc", ""] ∧
    ProcessWebHook (sampleHandler proceedPlain "") post ⟨"default"⟩ "cfg1" "abc/" =
      ⟨some (.NewNotFound ⟨"build.openshift.io", "buildconfighook"⟩ ""), []⟩ ∧
    Split (TrimPrefix "//generic") = ["", "generic"] ∧
    ProcessWebHook (sampleHandler proceedPlain "") post ⟨"default"⟩ "cfg1" "//generic" =
      ⟨some (.NewUnauthorized
        (Sprintf "the webhook %q for %q did not accept your secret" ["generic", "cfg1"])),
       [Event.Get "default" "cfg1", Event.GetTriggers "generic" cfg1,
        Event.Infof (Sprintf "checking secret for %q webhook trigger of buildconfig %s/%s"
          ["generic", "default", "cfg1"]),
        Event.CheckSecret "default" "" [trigger1]]⟩ := by
  decide

/-- The subpath `//` has two empty segments and is answered with `NewNotFound`;
on `//generic` the empty secret is handed to `CheckSecret`. -/
theorem malformed_iff_not_two_segments_witness :
    Split (TrimPrefix "//") = ["", ""] ∧
    ProcessWebHook (sampleHandler proceedPlain "") post ⟨"default"⟩ "cfg1" "//" =
      ⟨some (.NewNotFound (build.Resource "buildconfighook") ""), []⟩ ∧
    Split (TrimPrefix "//generic") = ["", "generic"] ∧
    (ProcessWebHook (sampleHandler proceedPlain "") post ⟨"default"⟩ "cfg1"
        "//generic").trace.take 4 =
      [Event.Get "default" "cfg1", Event.GetTriggers "generic" cfg1,
       Event.Infof (Sprintf "checking secret for %q webhook trigger of buildconfig %s/%s"
         ["generic", "default", "cfg1"]),
       Event.CheckSecret "default" "" [trigger1]] :=
  ⟨by decide, ((malformed_iff_not_two_segments (sampleHandler proceedPlain "") post ⟨"default"⟩
    "cfg1" "//").2.2 "" "" (by decide)).1 rfl, by decide,
   (((malformed_iff_not_two_segments (sampleHandler proceedPlain "") post ⟨"default"⟩
    "cfg1" "//generic").2.2 "" "generic" (by decide)).2
      (samplePlugin "generic" proceedPlain) rfl).2 cfg1 [trigger1] rfl rfl⟩

/-- The hook type `github` is not registered with the sample handler. -/
theorem unknown_hook_type_not_found_witness :
    Split (TrimPrefix "/abc/github") = ["abc", "github"] ∧
    (sampleHandler proceedPlain "").plugins.lookup "github" = none ∧
    ProcessWebHook (sampleHandler proceedPlain "") post ⟨"default"⟩ "cfg1" "/abc/github" =
      ⟨some (.NewNotFound ⟨"build.openshift.io", "buildconfighook"⟩ "github"), []⟩ :=
  ⟨by decide, rfl, unknown_hook_type_not_found (sampleHandler proceedPlain "") post ⟨"default"⟩
    "cfg1" "/abc/github" "abc" "github" (by decide) rfl⟩

/-- A wrong secret on `cfg1`: unauthorized, nothing extracted, instantiated or written. -/
theorem unverified_never_extracts_witness :
    verificationFails (sampleHandler proceedPlain "") ⟨"default"⟩ "cfg1" "wrong"
      (samplePlugin "generic" proceedPlain) ∧
    (ProcessWebHook (sampleHandler proceedPlain "") post ⟨"default"⟩ "cfg1" "wrong/generic").err =
      some (.NewUnauthorized
        (Sprintf "the webhook %q for %q did not accept your secret" ["generic", "cfg1"])) ∧
    extractions
      (ProcessWebHook (sampleHandler proceedPlain "") post ⟨"default"⟩ "cfg1" "wrong/generic").trace
      = 0 ∧
    instantiations
      (ProcessWebHook (sampleHandler proceedPlain "") post ⟨"default"⟩ "cfg1" "wrong/generic").trace
      = 0 ∧
    written
      (ProcessWebHook (sampleHandler proceedPlain "") post ⟨"default"⟩ "cfg1" "wrong/generic").trace
      = [] :=
  have h : verificationFails (sampleHandler proceedPlain "") ⟨"default"⟩ "cfg1" "wrong"
      (samplePlugin "generic" proceedPlain) :=
    Or.inr (Or.inr ⟨cfg1, [trigger1], .ErrSecretMismatch, rfl, rfl, rfl⟩)
  ⟨h, unverified_never_extracts (sampleHandler proceedPlain "") post ⟨"default"⟩ "cfg1"
    "wrong/generic" "wrong" "generic" (samplePlugin "generic" proceedPlain) (by decide) rfl h⟩

/-- A `GET` that the plugin refuses with `MethodNotSupported`. -/
theorem stop_on_known_reason_witness :
    verified (sampleHandler (stoppedWith .MethodNotSupported) "") ⟨"default"⟩ "cfg1" "abc"
      (samplePlugin "generic" (stoppedWith .MethodNotSupported)) cfg1 [trigger1] trigger1 ∧
    (ProcessWebHook (sampleHandler (stoppedWith .MethodNotSupported) "") ⟨"GET", [], ""⟩
        ⟨"default"⟩ "cfg1" "abc/generic").err =
      some (.NewMethodNotSupported ⟨"build.openshift.io", "buildconfighook"⟩ "GET") :=
  have h : verified (sampleHandler (stoppedWith .MethodNotSupported) "") ⟨"default"⟩ "cfg1" "abc"
      (samplePlugin "generic" (stoppedWith .MethodNotSupported)) cfg1 [trigger1] trigger1 :=
    ⟨rfl, rfl, rfl⟩
  ⟨h, (stop_on_known_reason (sampleHandler (stoppedWith .MethodNotSupported) "") ⟨"GET", [], ""⟩
    ⟨"default"⟩ "cfg1" "abc/generic" "abc" "generic"
    (samplePlugin "generic" (stoppedWith .MethodNotSupported)) cfg1 [trigger1] trigger1
    (by decide) rfl h rfl).2 rfl⟩

/-- A plugin error that is no status error is wrapped as an internal error. -/
theorem stop_on_other_reason_witness :
    verified (sampleHandler (stoppedWith (.plain "bad payload")) "") ⟨"default"⟩ "cfg1" "abc"
      (samplePlugin "generic" (stoppedWith (.plain "bad payload"))) cfg1 [trigger1] trigger1 ∧
    (ProcessWebHook (sampleHandler (stoppedWith (.plain "bad payload")) "") post
        ⟨"default"⟩ "cfg1" "abc/generic").err =
      some (.NewInternalError (.Errorf "hook failed: %v" (.plain "bad payload"))) :=
  have h : verified (sampleHandler (stoppedWith (.plain "bad payload")) "") ⟨"default"⟩ "cfg1"
      "abc" (samplePlugin "generic" (stoppedWith (.plain "bad payload"))) cfg1 [trigger1]
      trigger1 := ⟨rfl, rfl, rfl⟩
  ⟨h, (stop_on_other_reason (sampleHandler (stoppedWith (.plain "bad payload")) "") post
    ⟨"default"⟩ "cfg1" "abc/generic" "abc" "generic"
    (samplePlugin "generic" (stoppedWith (.plain "bad payload"))) cfg1 [trigger1] trigger1
    (.plain "bad payload") (by decide) rfl h rfl rfl (by decide)).2 rfl⟩

/-- An ignored event on `cfg1`: no build, nothing written, no error. -/
theorem stop_never_instantiates_witness :
    verified (sampleHandler ignored "") ⟨"default"⟩ "cfg1" "abc"
      (samplePlugin "generic" ignored) cfg1 [trigger1] trigger1 ∧
    instantiations
      (ProcessWebHook (sampleHandler ignored "") post ⟨"default"⟩ "cfg1" "abc/generic").trace = 0 ∧
    written
      (ProcessWebHook (sampleHandler ignored "") post ⟨"default"⟩ "cfg1" "abc/generic").trace = [] ∧
    (ProcessWebHook (sampleHandler ignored "") post ⟨"default"⟩ "cfg1" "abc/generic").err = none :=
  have h : verified (sampleHandler ignored "") ⟨"default"⟩ "cfg1" "abc"
      (samplePlugin "generic" ignored) cfg1 [trigger1] trigger1 := ⟨rfl, rfl, rfl⟩
  have t := stop_never_instantiates (sampleHandler ignored "") post ⟨"default"⟩ "cfg1"
    "abc/generic" "abc" "generic" (samplePlugin "generic" ignored) cfg1 [trigger1] trigger1
    (by decide) rfl h rfl
  ⟨h, t.1, t.2.1, t.2.2.2 rfl⟩

/-- C9 fails as stated: on `cfg1` with the right secret and a plugin that stops
without an error, `ProcessWebHook` returns no error and `ServeHTTP` ends with
`WriteHeader(200)`, and `Instantiate` was not called. -/
theorem ignored_event_succeeds_without_build :
    (ProcessWebHook (sampleHandler ignored "abc/generic") post ⟨"default"⟩ "cfg1"
      "abc/generic").err = none ∧
    instantiations (ProcessWebHook (sampleHandler ignored "abc/generic") post ⟨"default"⟩ "cfg1"
      "abc/generic").trace = 0 ∧
    (ServeHTTP (sampleHandler ignored "abc/generic") post).getLast? =
      some (Event.WriteHeader 200) ∧
    instantiations (ServeHTTP (sampleHandler ignored "abc/generic") post) = 0 := by
  decide

/-- A successful dispatch on `cfg1` calls `Instantiate` at most once. -/
theorem instantiate_at_most_once_witness :
    (ProcessWebHook (sampleHandler proceedPlain "") post ⟨"default"⟩ "cfg1" "abc/generic").err =
      none ∧
    instantiations
      (ProcessWebHook (sampleHandler proceedPlain "") post ⟨"default"⟩ "cfg1" "abc/generic").trace
      ≤ 1 :=
  ⟨by decide, (instantiate_at_most_once (sampleHandler proceedPlain "") post ⟨"default"⟩ "cfg1"
    "abc/generic").1⟩

/-- The request handed over for `cfg1` with a revision and one variable. -/
theorem proceed_hands_over_request_witness :
    verified (sampleHandler proceedRevision "") ⟨"default"⟩ "cfg1" "abc"
      (samplePlugin "generic" proceedRevision) cfg1 [trigger1] trigger1 ∧
    instantiated
      (ProcessWebHook (sampleHandler proceedRevision "") post ⟨"default"⟩ "cfg1"
        "abc/generic").trace =
      [("default", "default",
        { TriggeredBy := [⟨"webhook", "generic", some ⟨"c0ffee", "fix"⟩⟩]
          Name := "cfg1"
          Revision := some ⟨"c0ffee", "fix"⟩
          Env := [⟨"A", "1"⟩]
          DockerStrategyOptions := none })] :=
  have h : verified (sampleHandler proceedRevision "") ⟨"default"⟩ "cfg1" "abc"
      (samplePlugin "generic" proceedRevision) cfg1 [trigger1] trigger1 := ⟨rfl, rfl, rfl⟩
  ⟨h, proceed_hands_over_request (sampleHandler proceedRevision "") post ⟨"default"⟩ "cfg1"
    "abc/generic" "abc" "generic" (samplePlugin "generic" proceedRevision) cfg1 [trigger1]
    trigger1 (some ⟨"c0ffee", "fix"⟩) [⟨"A", "1"⟩] none none (by decide) rfl h rfl⟩

/-! ## Instantiation and the response -/

/-- C11: when the dispatch reaches `Instantiate` and the call fails with the
cause `e`, the result is
`errors.NewInternalError(fmt.Errorf("could not generate a build: %v", e))`,
whatever warning `Extract` returned; `Instantiate` was called once, it is the
last event of the trace, and nothing is written to the response. -/
theorem instantiate_failure_reported (w : WebHookHandler) (req : Request) (ctx : Context)
    (name subpath secret hookType : String) (plugin : Plugin) (config : BuildConfig)
    (triggers : List WebHookTrigger) (trigger : WebHookTrigger) (e : GoError)
    (hp : Split (TrimPrefix subpath) = [secret, hookType])
    (hr : w.plugins.lookup hookType = some plugin)
    (hv : verified w ctx name secret plugin config triggers trigger)
    (hs : (plugin.Extract config trigger req).proceed = true)
    (hi : w.Instantiate config.Namespace config.Namespace
      (requestOf w name hookType (plugin.Extract config trigger req)) = .error e) :
    (ProcessWebHook w req ctx name subpath).err =
      some (.NewInternalError (.Errorf "could not generate a build: %v" e)) ∧
    instantiations (ProcessWebHook w req ctx name subpath).trace = 1 ∧
    (ProcessWebHook w req ctx name subpath).trace.getLast? =
      some (Event.Instantiate config.Namespace config.Namespace
        (requestOf w name hookType (plugin.Extract config trigger req))) ∧
    written (ProcessWebHook w req ctx name subpath).trace = [] := by
  rw [outcome_proceed w req ctx name subpath secret hookType plugin config triggers trigger
    hp hr hv hs, hi]
  simp [traceToExtract, instantiations, written]

/-- C12: when `Extract` returns `proceed = true` and `Instantiate` succeeds, the
result of `ProcessWebHook` is the error `Extract` returned (nil when there is
none), whether the encoding succeeds or fails: when it succeeds the encoded
build is the one thing written to the response, when it fails nothing is
written, the failure goes to `HandleError` and is not the result. -/
theorem success_returns_warning (w : WebHookHandler) (req : Request) (ctx : Context)
    (name subpath secret hookType : String) (plugin : Plugin) (config : BuildConfig)
    (triggers : List WebHookTrigger) (trigger : WebHookTrigger) (newBuild : Build)
    (hp : Split (TrimPrefix subpath) = [secret, hookType])
    (hr : w.plugins.lookup hookType = some plugin)
    (hv : verified w ctx name secret plugin config triggers trigger)
    (hs : (plugin.Extract config trigger req).proceed = true)
    (hi : w.Instantiate config.Namespace config.Namespace
      (requestOf w name hookType (plugin.Extract config trigger req)) = .ok newBuild) :
    (ProcessWebHook w req ctx name subpath).err = (plugin.Extract config trigger req).err ∧
    (∀ newBuildEncoded, w.Encode w.groupVersion newBuild = .ok newBuildEncoded →
      written (ProcessWebHook w req ctx name subpath).trace = [newBuildEncoded]) ∧
    (∀ e, w.Encode w.groupVersion newBuild = .error e →
      written (ProcessWebHook w req ctx name subpath).trace = [] ∧
      (ProcessWebHook w req ctx name subpath).trace.getLast? = some (Event.HandleError e)) := by
  rw [outcome_proceed w req ctx name subpath secret hookType plugin config triggers trigger
    hp hr hv hs, hi]
  refine ⟨rfl, fun b hb => ?_, fun e he => ?_⟩
  · simp [hb, traceToExtract, written]
  · simp [he, traceToExtract, written]

/-- C13, as the code has it: when a build is instantiated, `Instantiate` was
called once, and
* with no warning attached the response has status 200, `ServeHTTP` ends with
  `WriteHeader(200)` and does not call the responder;
* with a warning attached and the new build encoded, the response has status
  200 as well, sent by the write of the encoded build, and the warning handed to
  `responder.Error` afterwards cannot alter it;
* with a warning attached and the encoding failed, nothing is written,
  `ServeHTTP` does not call `WriteHeader`, the warning is handed to
  `responder.Error` and the status of the response is the one the responder
  gives to the warning. -/
theorem instantiated_response_status (h : WebHookHandler) (r : Request)
    (errorStatus : GoError → Nat)
    (secret hookType : String) (plugin : Plugin) (config : BuildConfig)
    (triggers : List WebHookTrigger) (trigger : WebHookTrigger) (newBuild : Build)
    (hp : Split (TrimPrefix h.optionsPath) = [secret, hookType])
    (hr : h.plugins.lookup hookType = some plugin)
    (hv : verified h h.ctx h.name secret plugin config triggers trigger)
    (hs : (plugin.Extract config trigger r).proceed = true)
    (hi : h.Instantiate config.Namespace config.Namespace
      (requestOf h h.name hookType (plugin.Extract config trigger r)) = .ok newBuild) :
    instantiations (ServeHTTP h r) = 1 ∧
    ((plugin.Extract config trigger r).err = none →
      responseStatus errorStatus (ServeHTTP h r) = some 200 ∧
      (ServeHTTP h r).getLast? = some (Event.WriteHeader 200) ∧
      ∀ e, Event.ResponderError e ∉ ServeHTTP h r) ∧
    (∀ warning newBuildEncoded, (plugin.Extract config trigger r).err = some warning →
      h.Encode h.groupVersion newBuild = .ok newBuildEncoded →
      responseStatus errorStatus (ServeHTTP h r) = some 200 ∧
      written (ServeHTTP h r) = [newBuildEncoded] ∧
      (ServeHTTP h r).getLast? = some (Event.ResponderError warning) ∧
      ∀ code, Event.WriteHeader code ∉ ServeHTTP h r) ∧
    (∀ warning e, (plugin.Extract config trigger r).err = some warning →
      h.Encode h.groupVersion newBuild = .error e →
      responseStatus errorStatus (ServeHTTP h r) = some (errorStatus warning) ∧
      written (ServeHTTP h r) = [] ∧
      (ServeHTTP h r).getLast? = some (Event.ResponderError warning) ∧
      ∀ code, Event.WriteHeader code ∉ ServeHTTP h r) := by
  unfold ServeHTTP
  rw [outcome_proceed h r h.ctx h.name h.optionsPath secret hookType plugin config triggers
    trigger hp hr hv hs, hi]
  dsimp only
  cases hw : (plugin.Extract config trigger r).err with
  | none =>
    dsimp only
    cases h.Encode h.groupVersion newBuild <;>
      simp [traceToExtract, instantiations, responseStatus]
  | some warning =>
    dsimp only
    cases h.Encode h.groupVersion newBuild <;>
      simp [traceToExtract, instantiations, responseStatus, written]

/-! ## The leading separator -/

theorem TrimPrefix_slash_append (s : String) : TrimPrefix ("/" ++ s) = s := by
  simp [TrimPrefix, trimPrefixChars]

theorem TrimPrefix_of_no_slash (s : String) (h : s.data.head? ≠ some '/') :
    TrimPrefix s = s := by
  unfold TrimPrefix
  cases hd : s.data with
  | nil =>
    have : s = "" := by
      cases s
      simp_all
    simp [this, trimPrefixChars]
  | cons c cs =>
    have hc : c ≠ '/' := by
      intro hc
      apply h
      simp [hd, hc]
    simp only [trimPrefixChars, if_neg hc]
    rw [← hd]

theorem Split_slash_append (s : String) : Split ("/" ++ s) = "" :: Split s := by
  simp [Split, splitChars]

/-- C15: for a subpath `s` that does not begin with `/` and splits into exactly
two segments, the dispatch on `"/" ++ s` parses the same two segments as the
dispatch on `s` and, with the same handler, has the same outcome: the same
result and the same trace of calls and writes.  One separator only is removed:
`"//" ++ s` splits into three segments and is rejected as malformed. -/
theorem leading_slash_insensitive (w : WebHookHandler) (req : Request) (ctx : Context)
    (name s : String) (h0 : s.data.head? ≠ some '/') (h2 : (Split s).length = 2) :
    (∃ secret hookType, Split (TrimPrefix ("/" ++ s)) = [secret, hookType] ∧
      Split (TrimPrefix s) = [secret, hookType]) ∧
    ProcessWebHook w req ctx name ("/" ++ s) = ProcessWebHook w req ctx name s ∧
    (Split (TrimPrefix ("//" ++ s))).length = 3 ∧
    ProcessWebHook w req ctx name ("//" ++ s) =
      ⟨some (.NewBadRequest (Sprintf "unexpected hook subpath %s" ["//" ++ s])), []⟩ := by
  have t1 : TrimPrefix ("/" ++ s) = s := TrimPrefix_slash_append s
  have t0 : TrimPrefix s = s := TrimPrefix_of_no_slash s h0
  have t2 : TrimPrefix ("//" ++ s) = "/" ++ s := by
    have : "//" ++ s = "/" ++ ("/" ++ s) := by
      rw [← String.append_assoc]
      rfl
    rw [this, TrimPrefix_slash_append]
  have l3 : (Split (TrimPrefix ("//" ++ s))).length = 3 := by
    rw [t2, Split_slash_append, List.length_cons, h2]
  refine ⟨?_, ?_, l3, ?_⟩
  · obtain ⟨secret, hookType, hp⟩ := parts_of_length_two s (by rw [t0]; exact h2)
    exact ⟨secret, hookType, by rw [t1, ← t0]; exact hp, hp⟩
  · unfold ProcessWebHook
    simp only [t0, t1, h2]
    simp
  · exact outcome_malformed w req ctx name ("//" ++ s) (by omega)

end buildconfig

namespace openshiftapiserver

open buildconfig (GroupResource)

/-! ## Watch cache sizes -/

theorem tdiv_sixty (x : Int) :
    Int.tdiv x 60 = if 0 ≤ x then x / 60 else -((-x) / 60) := by
  split
  · next h => exact Int.tdiv_eq_ediv h (by decide)
  · next h =>
    have h' : 0 ≤ -x := by omega
    have := Int.tdiv_eq_ediv h' (show (0 : Int) ≤ 60 by decide)
    rw [Int.neg_tdiv] at this
    omega

theorem wrapInt_of_range (x : Int) (hlo : -2 ^ 63 ≤ x) (hhi : x < 2 ^ 63) :
    wrapInt x = x := by
  unfold wrapInt
  omega

theorem maxInt_eq_max (a b : Int) : maxInt a b = max a b := by
  unfold maxInt
  split <;> omega

theorem tdiv_sixty_mono (x y : Int) (h : x ≤ y) : Int.tdiv x 60 ≤ Int.tdiv y 60 := by
  rw [tdiv_sixty, tdiv_sixty]
  split <;> split <;> omega

theorem tdiv_sixty_bound (x : Int) (hlo : -2 ^ 63 ≤ x) (hhi : x < 2 ^ 63) :
    (-2 ^ 63 ≤ 10 * Int.tdiv x 60 ∧ 10 * Int.tdiv x 60 < 2 ^ 63) ∧
    (-2 ^ 63 ≤ 5 * Int.tdiv x 60 ∧ 5 * Int.tdiv x 60 < 2 ^ 63) ∧
    (-2 ^ 63 ≤ Int.tdiv x 60 ∧ Int.tdiv x 60 < 2 ^ 63) := by
  rw [tdiv_sixty]
  split <;> omega

theorem sizes_of_range (x : Int) (hlo : -2 ^ 63 ≤ x) (hhi : x < 2 ^ 63) :
    newHeuristicWatchCacheSizes x =
      [(⟨"network.openshift.io", "egressnetworkpolicies"⟩, max (10 * Int.tdiv x 60) 100),
       (⟨"network.openshift.io", "netnamespaces"⟩, max (5 * Int.tdiv x 60) 100),
       (⟨"network.openshift.io", "hostsubnets"⟩, max (5 * Int.tdiv x 60) 100)] := by
  obtain ⟨⟨a1, a2⟩, ⟨b1, b2⟩, ⟨c1, c2⟩⟩ := tdiv_sixty_bound x hlo hhi
  unfold newHeuristicWatchCacheSizes
  simp only [wrapInt_of_range _ c1 c2, wrapInt_of_range _ a1 a2, wrapInt_of_range _ b1 b2,
    maxInt_eq_max, mapSet]
  simp [List.filter]

theorem lookup_sizes (k : GroupResource) (a b c : Int) :
    List.lookup k
      [((⟨"network.openshift.io", "egressnetworkpolicies"⟩ : GroupResource), a),
       (⟨"network.openshift.io", "netnamespaces"⟩, b),
       (⟨"network.openshift.io", "hostsubnets"⟩, c)] =
      if k = ⟨"network.openshift.io", "egressnetworkpolicies"⟩ then some a
      else if k = ⟨"network.openshift.io", "netnamespaces"⟩ then some b
      else if k = ⟨"network.openshift.io", "hostsubnets"⟩ then some c
      else none := by
  simp only [List.lookup]
  split
  · next h => simp [eq_of_beq h]
  · next h =>
    have h1 : k ≠ ⟨"network.openshift.io", "egressnetworkpolicies"⟩ := by
      intro e
      simp [e] at h
    rw [if_neg h1]
    split
    · next h' => simp [eq_of_beq h']
    · next h' =>
      have h2 : k ≠ ⟨"network.openshift.io", "netnamespaces"⟩ := by
        intro e
        simp [e] at h'
      rw [if_neg h2]
      split
      · next h'' => simp [eq_of_beq h'']
      · next h'' =>
        have h3 : k ≠ ⟨"network.openshift.io", "hostsubnets"⟩ := by
          intro e
          simp [e] at h''
        rw [if_neg h3]

/-- C14: for every `expectedRAMCapacityMB` a 64-bit `int` can hold (zero and
negative values included; no product wraps around), the map returned by
`newHeuristicWatchCacheSizes` has exactly three keys, all of the group
`network.openshift.io`: `hostsubnets` and `netnamespaces` are sized
`max(5*c, 100)` and `egressnetworkpolicies` is sized `max(10*c, 100)`, where `c`
is `expectedRAMCapacityMB / 60` truncated toward zero; every size is at least
100 and no size decreases when `expectedRAMCapacityMB` grows. -/
theorem heuristic_sizes (x : Int) (hlo : -2 ^ 63 ≤ x) (hhi : x < 2 ^ 63) :
    (∀ k, k ∈ (newHeuristicWatchCacheSizes x).map Prod.fst ↔
      (k = ⟨"network.openshift.io", "hostsubnets"⟩ ∨
       k = ⟨"network.openshift.io", "netnamespaces"⟩ ∨
       k = ⟨"network.openshift.io", "egressnetworkpolicies"⟩)) ∧
    ((newHeuristicWatchCacheSizes x).map Prod.fst).Nodup ∧
    (newHeuristicWatchCacheSizes x).lookup ⟨"network.openshift.io", "hostsubnets"⟩ =
      some (max (5 * Int.tdiv x 60) 100) ∧
    (newHeuristicWatchCacheSizes x).lookup ⟨"network.openshift.io", "netnamespaces"⟩ =
      some (max (5 * Int.tdiv x 60) 100) ∧
    (newHeuristicWatchCacheSizes x).lookup ⟨"network.openshift.io", "egressnetworkpolicies"⟩ =
      some (max (10 * Int.tdiv x 60) 100) ∧
    (∀ k v, (newHeuristicWatchCacheSizes x).lookup k = some v → 100 ≤ v) ∧
    (∀ y, y < 2 ^ 63 → x ≤ y → ∀ k v v',
      (newHeuristicWatchCacheSizes x).lookup k = some v →
      (newHeuristicWatchCacheSizes y).lookup k = some v' → v ≤ v') := by
  rw [sizes_of_range x hlo hhi]
  refine ⟨?_, ?_, ?_, ?_, ?_, ?_, ?_⟩
  · intro k
    simp only [List.map, List.mem_cons, List.mem_nil_iff, or_false]
    constructor
    · rintro (h | h | h) <;> simp [h]
    · rintro (h | h | h) <;> simp [h]
  · simp
  · rw [lookup_sizes]
    simp
  · rw [lookup_sizes]
    simp
  · rw [lookup_sizes]
    simp
  · intro k v hv
    rw [lookup_sizes] at hv
    split at hv
    · simp at hv
      omega
    · split at hv
      · simp at hv
        omega
      · split at hv
        · simp at hv
          omega
        · simp at hv
  · intro y hy hxy k v v' hv hv'
    rw [sizes_of_range y (by omega) hy, lookup_sizes] at hv'
    rw [lookup_sizes] at hv
    have hm := tdiv_sixty_mono x y hxy
    split at hv
    · next hk =>
      rw [if_pos hk] at hv'
      simp at hv hv'
      omega
    · next hk =>
      rw [if_neg hk] at hv'
      split at hv
      · next hk2 =>
        rw [if_pos hk2] at hv'
        simp at hv hv'
        omega
      · next hk2 =>
        rw [if_neg hk2] at hv'
        split at hv
        · next hk3 =>
          rw [if_pos hk3] at hv'
          simp at hv hv'
          omega
        · simp at hv

end openshiftapiserver

namespace buildconfig

/-! ## Instantiation and the response at concrete requests -/

/-- The instantiator fails on `cfg1` while a warning is pending: internal error,
one call, nothing written. -/
theorem instantiate_failure_reported_witness :
    verified (sampleHandlerNoBuild proceedWarning "") ⟨"default"⟩ "cfg1" "abc"
      (samplePlugin "generic" proceedWarning) cfg1 [trigger1] trigger1 ∧
    (ProcessWebHook (sampleHandlerNoBuild proceedWarning "") post ⟨"default"⟩ "cfg1"
        "abc/generic").err =
      some (.NewInternalError
        (.Errorf "could not generate a build: %v" (.plain "quota exceeded"))) ∧
    instantiations (ProcessWebHook (sampleHandlerNoBuild proceedWarning "") post ⟨"default"⟩
      "cfg1" "abc/generic").trace = 1 ∧
    written (ProcessWebHook (sampleHandlerNoBuild proceedWarning "") post ⟨"default"⟩
      "cfg1" "abc/generic").trace = [] :=
  have h : verified (sampleHandlerNoBuild proceedWarning "") ⟨"default"⟩ "cfg1" "abc"
      (samplePlugin "generic" proceedWarning) cfg1 [trigger1] trigger1 := ⟨rfl, rfl, rfl⟩
  have t := instantiate_failure_reported (sampleHandlerNoBuild proceedWarning "") post
    ⟨"default"⟩ "cfg1" "abc/generic" "abc" "generic" (samplePlugin "generic" proceedWarning)
    cfg1 [trigger1] trigger1 (.plain "quota exceeded") (by decide) rfl h rfl rfl
  ⟨h, t.1, t.2.1, t.2.2.2⟩

/-- The encoder fails on the new build of `cfg1` while a warning is pending: the
warning is the result and nothing is written. -/
theorem success_returns_warning_witness :
    verified (sampleHandlerNoCodec proceedWarning "") ⟨"default"⟩ "cfg1" "abc"
      (samplePlugin "generic" proceedWarning) cfg1 [trigger1] trigger1 ∧
    (ProcessWebHook (sampleHandlerNoCodec proceedWarning "") post ⟨"default"⟩ "cfg1"
        "abc/generic").err = some (.status "" "ref ignored") ∧
    written (ProcessWebHook (sampleHandlerNoCodec proceedWarning "") post ⟨"default"⟩
      "cfg1" "abc/generic").trace = [] :=
  have h : verified (sampleHandlerNoCodec proceedWarning "") ⟨"default"⟩ "cfg1" "abc"
      (samplePlugin "generic" proceedWarning) cfg1 [trigger1] trigger1 := ⟨rfl, rfl, rfl⟩
  have t := success_returns_warning (sampleHandlerNoCodec proceedWarning "") post
    ⟨"default"⟩ "cfg1" "abc/generic" "abc" "generic" (samplePlugin "generic" proceedWarning)
    cfg1 [trigger1] trigger1 ⟨"default", "cfg1-1"⟩ (by decide) rfl h rfl rfl
  ⟨h, t.1, (t.2.2 (.plain "no kind registered") rfl).1⟩

/-- C13 fails as stated: on `cfg1` with the right secret, a plugin that proceeds
with a warning and an encoder that fails, the build is instantiated, nothing is
written, `ServeHTTP` ends with `responder.Error(warning)` without calling
`WriteHeader(200)`, and with a responder that answers the warning with 500 the
status of the response is 500. -/
theorem warning_without_body_not_ok :
    instantiations (ServeHTTP (sampleHandlerNoCodec proceedPlainWarning "abc/generic") post)
      = 1 ∧
    written (ServeHTTP (sampleHandlerNoCodec proceedPlainWarning "abc/generic") post) = [] ∧
    (ServeHTTP (sampleHandlerNoCodec proceedPlainWarning "abc/generic") post).getLast? =
      some (Event.ResponderError (.plain "ref ignored")) ∧
    Event.WriteHeader 200 ∉
      ServeHTTP (sampleHandlerNoCodec proceedPlainWarning "abc/generic") post ∧
    responseStatus sampleErrorStatus
      (ServeHTTP (sampleHandlerNoCodec proceedPlainWarning "abc/generic") post) = some 500 := by
  decide

/-- A dispatch on `cfg1` with a warning and an encoded build: status 200, the
warning goes to the responder afterwards. -/
theorem instantiated_response_status_witness :
    verified (sampleHandler proceedPlainWarning "/abc/generic") ⟨"default"⟩ "cfg1" "abc"
      (samplePlugin "generic" proceedPlainWarning) cfg1 [trigger1] trigger1 ∧
    instantiations (ServeHTTP (sampleHandler proceedPlainWarning "/abc/generic") post) = 1 ∧
    responseStatus sampleErrorStatus
      (ServeHTTP (sampleHandler proceedPlainWarning "/abc/generic") post) = some 200 ∧
    (ServeHTTP (sampleHandler proceedPlainWarning "/abc/generic") post).getLast? =
      some (Event.ResponderError (.plain "ref ignored")) :=
  have h : verified (sampleHandler proceedPlainWarning "/abc/generic") ⟨"default"⟩ "cfg1" "abc"
      (samplePlugin "generic" proceedPlainWarning) cfg1 [trigger1] trigger1 := ⟨rfl, rfl, rfl⟩
  have t := instantiated_response_status (sampleHandler proceedPlainWarning "/abc/generic") post
    sampleErrorStatus "abc" "generic" (samplePlugin "generic" proceedPlainWarning) cfg1
    [trigger1] trigger1 ⟨"default", "cfg1-1"⟩ (by decide) rfl h rfl rfl
  have u := t.2.2.1 (.plain "ref ignored") "cfg1-1" rfl rfl
  ⟨h, t.1, u.1, u.2.2.1⟩

/-- The subpaths `/abc/generic` and `abc/generic` have the same outcome on `cfg1`. -/
theorem leading_slash_insensitive_witness :
    "abc/generic".data.head? ≠ some '/' ∧ (Split "abc/generic").length = 2 ∧
    ProcessWebHook (sampleHandler proceedPlain "") post ⟨"default"⟩ "cfg1" ("/" ++ "abc/generic") =
      ProcessWebHook (sampleHandler proceedPlain "") post ⟨"default"⟩ "cfg1" "abc/generic" ∧
    ProcessWebHook (sampleHandler proceedPlain "") post ⟨"default"⟩ "cfg1" ("//" ++ "abc/generic") =
      ⟨some (.NewBadRequest (Sprintf "unexpected hook subpath %s" ["//" ++ "abc/generic"])), []⟩ :=
  have t := leading_slash_insensitive (sampleHandler proceedPlain "") post ⟨"default"⟩ "cfg1"
    "abc/generic" (by decide) (by decide)
  ⟨by decide, by decide, t.2.1, t.2.2.2⟩

end buildconfig

namespace openshiftapiserver

/-- With 6000 MB the cluster size is 100 and `hostsubnets` is sized 500; with
-6000 MB every size is 100. -/
theorem heuristic_sizes_witness :
    (newHeuristicWatchCacheSizes 6000).lookup ⟨"network.openshift.io", "hostsubnets"⟩ =
      some (max (5 * Int.tdiv 6000 60) 100) ∧
    max (5 * Int.tdiv 6000 60) 100 = 500 ∧
    (newHeuristicWatchCacheSizes (-6000)).lookup
        ⟨"network.openshift.io", "egressnetworkpolicies"⟩ =
      some (max (10 * Int.tdiv (-6000) 60) 100) ∧
    max (10 * Int.tdiv (-6000) 60) 100 = 100 :=
  ⟨(heuristic_sizes 6000 (by norm_num) (by norm_num)).2.2.1, by decide,
   (heuristic_sizes (-6000) (by norm_num) (by norm_num)).2.2.2.2.1, by decide⟩

end openshiftapiserver
